import Mathlib

/-!
Shallow embedding of the crypto-models pipeline (src/py/evalutate.py and
src/py/stable.py) and verification of its specification claims.

Modelling conventions:
* A pandas DataFrame indexed by date becomes `DF`: a list of index labels
  (`idx`, dates encoded as `Nat`), a list of column names (`cols`), and a
  cell function `cell : Nat → String → Option ℚ`.  Within the grid
  `idx × cols`, `some q` is a finite float value and `none` is pandas NaN;
  `DF.entry` restricts `cell` to the grid, so outside the grid every
  lookup is `none` (the label combination is absent).
* Floating-point values are modelled as ℚ.  The only division fact the
  claims need, x / x = 1 for finite nonzero x, holds exactly in IEEE-754
  arithmetic, so ℚ is faithful for these properties; pandas division by
  zero (NaN/inf results) is modelled by `none`.
* Wall-clock times and file modification times are `Int` seconds.
-/

namespace CryptoModels

/-- JSON values, as produced by `response.json()` / `json.load` and consumed
by `json.dump`.  Numbers are modelled as ℚ. -/
inductive Json where
  | null
  | bool (b : Bool)
  | num (q : ℚ)
  | str (s : String)
  | arr (elems : List Json)
  | obj (fields : List (String × Json))

/-- A pandas DataFrame with a date index: index labels, column names and a
cell function (`some` = finite value, `none` = NaN / absent). -/
structure DF where
  idx : List Nat
  cols : List String
  cell : Nat → String → Option ℚ

/-- Cell lookup restricted to the table's own grid: outside `idx × cols`
there is no value. -/
def DF.entry (df : DF) (d : Nat) (c : String) : Option ℚ :=
  if d ∈ df.idx ∧ c ∈ df.cols then df.cell d c else none

/-- `pd.DataFrame()` — the empty table `get_stablecoins_total_supply`
starts from. -/
def emptyDF : DF := ⟨[], [], fun _ _ => none⟩

/-- pandas `DataFrame.empty`: true when either axis has length zero. -/
def DF.isEmptyTable (df : DF) : Bool := df.idx.isEmpty || df.cols.isEmpty

/-- Elementwise float division as pandas performs it: `none` (NaN) when
either operand is missing/NaN, and a non-finite result (NaN or ±inf) when
the denominator is zero. -/
def qdiv : Option ℚ → Option ℚ → Option ℚ
  | some x, some y => if y = 0 then none else some (x / y)
  | _, _ => none

/-- `compute_ratio` from src/py/evalutate.py lines 144–150: restrict both
tables to the intersection of their date indices, then divide elementwise.
pandas aligns the columns of `df1 / df2` on the union of the two column
sets, producing NaN wherever a column is missing from one side. -/
def compute_ratio (df1 df2 : DF) : DF where
  idx := df1.idx.filter (fun d => decide (d ∈ df2.idx))
  cols := df1.cols ++ df2.cols.filter (fun c => decide (c ∉ df1.cols))
  cell := fun d c => qdiv (df1.entry d c) (df2.entry d c)

/-- Outcome of running `main` in src/py/evalutate.py: either the early
`return` after the empty-supply check, or a full run that renders the two
ratio charts. -/
inductive PipelineResult where
  | aborted (msg : String)
  | rendered (marketCapToSupply marketCapToTvl : DF)

/-- Whether the presentation step (chart rendering) was reached. -/
def PipelineResult.presentationInvoked : PipelineResult → Bool
  | .aborted _ => false
  | .rendered _ _ => true

/-- Control flow of `main` (src/py/evalutate.py lines 152–199) after the
three tables have been obtained: abort early iff the stablecoin supply
table is `None` or empty (`get_filtered_stablecoins_total_supply` never
returns `None`, so only the `.empty` test can fire); otherwise compute
both ratios and render both charts unconditionally. -/
def main_model (supply market_cap tvl : DF) : PipelineResult :=
  if supply.isEmptyTable then
    .aborted "Stablecoin total supply data is not available."
  else
    .rendered (compute_ratio market_cap supply) (compute_ratio market_cap tvl)

/-! ## Cache store (src/py/stable.py lines 7–30)

The on-disk cache is a map from file path to the stored JSON payload and
the file's modification time.  File contents are modelled at the
JSON-value level: `json.dump`/`json.load` round-trip a Python value
exactly, so a file holds the `Json` value written to it. -/

/-- The filesystem as the cache store sees it: path ↦ (payload, mtime). -/
structure FileStore where
  files : String → Option (Json × Int)

/-- `CACHE_TTL = timedelta(hours=24)`, in seconds. -/
def CACHE_TTL : Int := 86400

/-- `is_cache_valid` (stable.py lines 13–20): the file exists and
`now - mtime < CACHE_TTL`. -/
def is_cache_valid (fs : FileStore) (now : Int) (path : String) : Bool :=
  match fs.files path with
  | none => false
  | some (_, mtime) => now - mtime < CACHE_TTL

/-- `load_cache` (stable.py lines 22–26): return the file's JSON payload,
or `None` when the file does not exist. -/
def load_cache (fs : FileStore) (path : String) : Option Json :=
  match fs.files path with
  | none => none
  | some (d, _) => some d

/-- `save_cache` (stable.py lines 28–30): overwrite the file with the
JSON payload; its mtime becomes the current time. -/
def save_cache (fs : FileStore) (now : Int) (path : String) (data : Json) : FileStore :=
  ⟨fun p => if p = path then some (data, now) else fs.files p⟩

/-! ## HTTP fetchers -/

/-- An HTTP response: status code, and the decoded JSON body (`none` when
the body is not valid JSON, so `response.json()` raises). -/
structure Resp where
  status : Nat
  json : Option Json

/-- How a fetcher terminates: a value, the `None` sentinel (after a printed
diagnostic), or a raised exception carrying its message. -/
inductive FetchOutcome (α : Type) where
  | ok (value : α)
  | sentinelNone
  | raised (msg : String)
deriving DecidableEq

/-- Cache path used by `get_stablecoin_circulation`. -/
def stablecoin_cache_path (asset_id : String) : String :=
  ".cache/" ++ asset_id ++ ".json"

/-- Cache/network control flow of `get_stablecoin_circulation`
(stable.py lines 32–51), up to and excluding `process_stablecoin_data`.
`resp` is what the HTTP endpoint would answer on this run.  Returns the
data used, the resulting file store, and the number of HTTP requests
issued; `requests.Response.ok` is `status_code < 400`, so the fetcher
raises `HTTP Error: <status>` exactly when the status is ≥ 400, and a
body that is not valid JSON raises from `response.json()`. -/
def get_stablecoin_circulation_run (fs : FileStore) (now : Int) (asset_id : String)
    (resp : Resp) : Except String (Json × FileStore × Nat) :=
  let path := stablecoin_cache_path asset_id
  if is_cache_valid fs now path then
    .ok ((load_cache fs path).getD Json.null, fs, 0)
  else if 400 ≤ resp.status then
    .error ("HTTP Error: " ++ toString resp.status)
  else
    match resp.json with
    | none => .error "JSONDecodeError"
    | some data => .ok (data, save_cache fs now path data, 1)

/-- One point of the DefiLlama TVL response: an object with numeric
`date` and `tvl` fields.  Any other shape makes the loop body in
`_get_historical_chain_tvl` raise (caught by its `except`). -/
def tvlPoint : Json → Option (ℚ × ℚ)
  | .obj fields =>
    match fields.lookup "date", fields.lookup "tvl" with
    | some (.num d), some (.num t) => some (d, t)
    | _, _ => none
  | _ => none

/-- Parse the whole TVL response body: a list of date/tvl points,
all-or-nothing. -/
def tvlParse : Json → Option (List (ℚ × ℚ))
  | .arr entries => entries.mapM tvlPoint
  | _ => none

/-- `_get_historical_chain_tvl` (evalutate.py lines 101–123).  It issues
one `requests.get` unconditionally — there is no cache consultation in
this fetcher (the cache line in its caller is commented out).  On a
non-200 status it prints a message and returns `None`; any parse failure
inside the `try` block is caught and also returns `None`.  The second
component counts HTTP requests: always 1. -/
def tvl_fetch (chain_name : String) (resp : Resp) :
    FetchOutcome (List (ℚ × ℚ)) × Nat :=
  (if resp.status ≠ 200 then .sentinelNone
   else
     match resp.json with
     | none => .sentinelNone
     | some data =>
       match tvlParse data with
       | none => .sentinelNone
       | some pts => .ok pts, 1)

/-! ## CoinGecko price / market-cap fetcher (evalutate.py lines 12–99) -/

/-- The CoinGecko `get_coin_market_chart_range_by_id` payload: parallel
lists of (millisecond timestamp, value) pairs. -/
structure CGData where
  prices : List (Nat × ℚ)
  market_caps : List (Nat × ℚ)

/-- The filesystem as the price fetcher's inline cache sees it:
path ↦ (payload, mtime).  The files hold exactly the CoinGecko payload
serialized as JSON. -/
structure CGStore where
  files : String → Option (CGData × Int)

/-- Cache path used by `get_historical_price_df` /
`get_historical_market_cap_df`: `.cache/<name>.json`. -/
def price_cache_path (name : String) : String :=
  ".cache/" ++ name ++ ".json"

/-- `fetch_and_cache_data` (evalutate.py lines 90–99): fetch the payload
from the network and overwrite the cache file with the raw response. -/
def fetch_and_cache_data (fs : CGStore) (now : Int) (path : String) (api : CGData) :
    CGData × CGStore :=
  (api, ⟨fun p => if p = path then some (api, now) else fs.files p⟩)

/-- The per-token loop body shared by `get_historical_price_df` and
`get_historical_market_cap_df` (evalutate.py lines 26–39 and 65–78): if
the cache file exists and is younger than one day, load it (0 HTTP
calls); otherwise fetch and overwrite the cache (1 HTTP call).  `api` is
the payload the network would return on this run. -/
def price_token_run (fs : CGStore) (now : Int) (name : String) (api : CGData) :
    CGData × CGStore × Nat :=
  let path := price_cache_path name
  match fs.files path with
  | some (content, mtime) =>
    if now - mtime < 86400 then (content, fs, 0)
    else
      let fetched := fetch_and_cache_data fs now path api
      (fetched.1, fetched.2, 1)
  | none =>
    let fetched := fetch_and_cache_data fs now path api
    (fetched.1, fetched.2, 1)

/-- The single-token DataFrame built from `data['prices']`
(evalutate.py lines 42–44): index = the millisecond timestamps as
returned by `pd.to_datetime(..., unit='ms')` (full precision — no
truncation to days), one column named after the token. -/
def price_token_df (name : String) (data : CGData) : DF where
  idx := data.prices.map (fun p => p.1)
  cols := [name]
  cell := fun d c => if c = name then data.prices.lookup d else none

/-- The single-token DataFrame built from `data['market_caps']`
(evalutate.py lines 81–83). -/
def market_cap_token_df (name : String) (data : CGData) : DF where
  idx := data.market_caps.map (fun p => p.1)
  cols := [name]
  cell := fun d c => if c = name then data.market_caps.lookup d else none

/-! ## Calendar helpers for millisecond timestamps -/

/-- Milliseconds in a day. -/
def msPerDay : Nat := 86400000

/-- The epoch day a millisecond timestamp falls on. -/
def dayOfMs (ms : Nat) : Nat := ms / msPerDay

/-- The time-of-day component of a millisecond timestamp. -/
def msOfDay (ms : Nat) : Nat := ms % msPerDay

/-- Civil date (year, month, day) of an epoch day count (standard
days-to-civil conversion for the proleptic Gregorian calendar). -/
def civilFromDays (z : Int) : Int × Int × Int :=
  let zz := z + 719468
  let era : Int := (if 0 ≤ zz then zz else zz - 146096) / 146097
  let doe : Int := zz - era * 146097
  let yoe : Int := (doe - doe / 1460 + doe / 36524 - doe / 146096) / 365
  let y : Int := yoe + era * 400
  let doy : Int := doe - (365 * yoe + yoe / 4 - yoe / 100)
  let mp : Int := (5 * doy + 2) / 153
  let d : Int := doy - (153 * mp + 2) / 5 + 1
  let m : Int := mp + (if mp < 10 then 3 else -9)
  (if m ≤ 2 then y + 1 else y, m, d)

/-! ## Stablecoin total-supply aggregation (src/py/stable.py lines 73–129) -/

/-- A pegged asset from the DefiLlama catalog together with its per-chain
supply table (the output of `process_stablecoin_data` for that asset:
date × chain grid, `pivot` + `fillna(0)`). -/
structure PeggedAsset where
  name : String
  pegMechanism : String
  table : DF

/-- The filter applied by `fetch_and_cache_assets` (stable.py line 90):
keep exactly the assets whose `pegMechanism` is `"fiat-backed"`. -/
def fetch_and_cache_assets_filter (assets : List PeggedAsset) : List PeggedAsset :=
  assets.filter (fun a => a.pegMechanism == "fiat-backed")

/-- Cell-level behaviour of pandas `DataFrame.add(other, fill_value=0)`:
a value missing (or NaN) on one side is replaced by 0, and the result is
missing only where both sides are missing. -/
def optAdd : Option ℚ → Option ℚ → Option ℚ
  | some x, some y => some (x + y)
  | some x, none => some x
  | none, some y => some y
  | none, none => none

/-- pandas `a.add(b, fill_value=0)` (stable.py line 103): the result is
indexed by the union of the two indices and the union of the two column
sets; each cell combines the two sides with `optAdd`. -/
def dfAdd (a b : DF) : DF where
  idx := a.idx ++ b.idx.filter (fun d => decide (d ∉ a.idx))
  cols := a.cols ++ b.cols.filter (fun c => decide (c ∉ a.cols))
  cell := fun d c => optAdd (a.entry d c) (b.entry d c)

/-- `get_stablecoins_total_supply` (stable.py lines 95–105): fold
`DataFrame.add(..., fill_value=0)` over the per-asset supply tables of
the fiat-backed assets, starting from the empty DataFrame. -/
def get_stablecoins_total_supply (assets : List PeggedAsset) : DF :=
  (fetch_and_cache_assets_filter assets).foldl (fun acc a => dfAdd acc a.table) emptyDF

/-- The L2 chain list hardcoded inside `get_filtered_stablecoins_total_supply`
(stable.py line 126).  It is a local literal of that function, not a
parameter a caller could supply. -/
def l2_chains : List String :=
  ["Base", "Optimism", "Arbitrum", "Polygon", "zkSync Lite", "StarkNet", "Scroll"]

/-- `total_supply_df[l2_chains].sum(axis=1)` for one date: pandas row sum
with `skipna=True`, so a NaN cell contributes 0. -/
def l2Sum (df : DF) (d : Nat) : ℚ :=
  (l2_chains.map (fun c => (df.entry d c).getD 0)).sum

/-- `get_filtered_stablecoins_total_supply` (stable.py lines 123–129)
applied to the aggregated supply table `df`: reading a missing column
raises `KeyError` (pandas), so the function succeeds only when
`"Ethereum"`, every hardcoded L2 name and every requested chain are
columns of `df`.  On success the `"Ethereum"` column becomes the old
Ethereum value plus the row sum over the L2 columns (NaN + x = NaN), and
the result is the column selection `df[chains]`. -/
def get_filtered_step (chains : List String) (df : DF) : Except String DF :=
  if "Ethereum" ∉ df.cols then .error "KeyError: Ethereum"
  else if ¬ (∀ c ∈ l2_chains, c ∈ df.cols) then .error "KeyError: L2 not in index"
  else
    let df2 : DF :=
      ⟨df.idx, df.cols, fun d c =>
        if c = "Ethereum" then
          match df.entry d "Ethereum" with
          | none => none
          | some e => some (e + l2Sum df d)
        else df.cell d c⟩
    if ¬ (∀ c ∈ chains, c ∈ df2.cols) then .error "KeyError: chains not in index"
    else .ok ⟨df2.idx, chains, df2.cell⟩

/-- Whether an `Except` result is a success. -/
def exceptOk : Except String DF → Bool
  | .ok _ => true
  | .error _ => false

/-- Observe one cell of the table produced by `get_filtered_step`:
`none` when the call raised, `some (entry)` otherwise. -/
def filteredEntry (chains : List String) (df : DF) (d : Nat) (c : String) :
    Option (Option ℚ) :=
  match get_filtered_step chains df with
  | .ok r => some (r.entry d c)
  | .error _ => none

/-! ## Helper lemmas -/

/-- A grid lookup that yields a value certifies membership in both axes. -/
theorem DF.entry_eq_some (df : DF) (d : Nat) (c : String) (x : ℚ)
    (h : df.entry d c = some x) : d ∈ df.idx ∧ c ∈ df.cols := by
  by_cases hm : d ∈ df.idx ∧ c ∈ df.cols
  · exact hm
  · rw [DF.entry, if_neg hm] at h
    exact absurd h (by simp)

/-- Concrete example tables used by several claims. -/
def sC1df : DF := ⟨[0], ["Ethereum"], fun _ _ => some 100⟩

def mcC1df : DF := ⟨[1], ["Ethereum"], fun _ _ => some 5⟩

def tvlC1df : DF := ⟨[1], ["Ethereum"], fun _ _ => some 7⟩

def A0df : DF := ⟨[0], ["x"], fun _ _ => some 0⟩

def wAdf : DF := ⟨[0], ["x"], fun _ _ => some 2⟩

def wBdf : DF := ⟨[0, 1], ["y"], fun _ _ => some 3⟩

def wCdf : DF := ⟨[0, 2], ["y"], fun _ _ => some 4⟩

/-! ## Claim C1 -/

/-- C1, counterexample.  The claim says an empty date intersection makes
the pipeline halt before the presentation step.  In the source, `main`
only tests the stablecoin supply table for emptiness; with a non-empty
supply table whose dates are disjoint from the market-cap table's, the
ratio is a zero-row table and yet both charts are still rendered. -/
theorem claim_C1_counterexample :
    (compute_ratio mcC1df sC1df).idx = [] ∧
      sC1df.isEmptyTable = false ∧
      (main_model sC1df mcC1df tvlC1df).presentationInvoked = true := by
  decide

/-- C1, amended.  When the two tables passed to `compute_ratio` have
disjoint date indices the result is a zero-row table.  However, the
pipeline's presentation step is skipped exactly when the stablecoin
supply table is empty; an empty ratio table does not halt the pipeline
(the charts are still rendered). -/
theorem claim_C1_amended :
    (∀ df1 df2 : DF, (∀ d, d ∈ df1.idx → d ∉ df2.idx) →
        (compute_ratio df1 df2).idx = []) ∧
      (∀ supply market_cap tvl : DF,
        (main_model supply market_cap tvl).presentationInvoked
          = !supply.isEmptyTable) := by
  constructor
  · intro df1 df2 h
    simp only [compute_ratio]
    rw [List.filter_eq_nil_iff]
    intro d hd
    simpa using h d hd
  · intro supply market_cap tvl
    by_cases h : supply.isEmptyTable
    · simp [main_model, h, PipelineResult.presentationInvoked]
    · simp [main_model, h, PipelineResult.presentationInvoked]

/-- C1, witness: the amended theorem applied at the concrete disjoint
tables. -/
theorem claim_C1_witness :
    (compute_ratio mcC1df sC1df).idx = [] ∧
      (main_model sC1df mcC1df tvlC1df).presentationInvoked
        = !sC1df.isEmptyTable :=
  ⟨claim_C1_amended.1 mcC1df sC1df (by decide),
   claim_C1_amended.2 sC1df mcC1df tvlC1df⟩

/-! ## Claim C6 -/

/-- C6, counterexample.  The claim says `compute_ratio A A` is all-ones
for every table `A`; but a table containing the value 0 (ubiquitous in
the supply tables, which are zero-filled) yields 0 / 0 = NaN at that
cell, not 1. -/
theorem claim_C6_counterexample :
    0 ∈ (compute_ratio A0df A0df).idx ∧
      (compute_ratio A0df A0df).entry 0 "x" = none := by
  decide

/-- C6, amended.  For a table `A` all of whose grid cells hold nonzero
finite values, `compute_ratio A A` has exactly `A`'s index and columns
and every entry equals 1; a zero or missing cell instead produces NaN. -/
theorem claim_C6_amended (A : DF)
    (h : ∀ d ∈ A.idx, ∀ c ∈ A.cols, ∃ q, A.cell d c = some q ∧ q ≠ 0) :
    (compute_ratio A A).idx = A.idx ∧ (compute_ratio A A).cols = A.cols ∧
      ∀ d ∈ A.idx, ∀ c ∈ A.cols, (compute_ratio A A).entry d c = some 1 := by
  have hidx : (compute_ratio A A).idx = A.idx := by
    simp only [compute_ratio]
    rw [List.filter_eq_self]
    intro d hd
    simpa using hd
  have hcols : (compute_ratio A A).cols = A.cols := by
    simp only [compute_ratio]
    have : A.cols.filter (fun c => decide (c ∉ A.cols)) = [] := by
      rw [List.filter_eq_nil_iff]
      intro c hc
      simpa using hc
    rw [this, List.append_nil]
  refine ⟨hidx, hcols, ?_⟩
  intro d hd c hc
  obtain ⟨q, hq, hq0⟩ := h d hd c hc
  have hmem : d ∈ (compute_ratio A A).idx ∧ c ∈ (compute_ratio A A).cols := by
    rw [hidx, hcols]; exact ⟨hd, hc⟩
  have hentry : A.entry d c = some q := by
    rw [DF.entry, if_pos ⟨hd, hc⟩, hq]
  rw [DF.entry, if_pos hmem]
  show qdiv (A.entry d c) (A.entry d c) = some 1
  rw [hentry]
  simp [qdiv, hq0, div_self hq0]

/-- C6, witness: the amended theorem applied at a concrete table with a
single nonzero cell. -/
theorem claim_C6_witness : (compute_ratio wAdf wAdf).entry 0 "x" = some 1 :=
  (claim_C6_amended wAdf
    (fun _ _ _ _ => ⟨2, rfl, by norm_num⟩)).2.2 0 (by decide) "x" (by decide)

/-! ## Claim C7 -/

/-- C7, confirmed.  Every date in the index of `compute_ratio`'s result
is present in both input tables' indices: the intersection-based join
never includes a date absent from either input series. -/
theorem claim_C7_theorem (df1 df2 : DF) (d : Nat)
    (h : d ∈ (compute_ratio df1 df2).idx) : d ∈ df1.idx ∧ d ∈ df2.idx := by
  simp only [compute_ratio] at h
  have hf := List.mem_filter.mp h
  exact ⟨hf.1, by simpa using hf.2⟩

/-- C7, witness: applied at two concrete tables sharing the date 0. -/
theorem claim_C7_witness :
    0 ∈ (compute_ratio wBdf wCdf).idx ∧ (0 ∈ wBdf.idx ∧ 0 ∈ wCdf.idx) :=
  ⟨by decide, claim_C7_theorem wBdf wCdf 0 (by decide)⟩

/-! ## Claim C8 -/

/-- The empty filesystem. -/
def emptyFS : FileStore := ⟨fun _ => none⟩

/-- C8, confirmed.  Writing a cache entry with `save_cache` and reading
it back with `load_cache` returns exactly the JSON payload written, and
any read within the 24-hour TTL of the write finds the entry fresh. -/
theorem claim_C8_theorem (fs : FileStore) (now : Int) (path : String)
    (data : Json) (t : Int) (h : t - now < CACHE_TTL) :
    load_cache (save_cache fs now path data) path = some data ∧
      is_cache_valid (save_cache fs now path data) t path = true := by
  constructor
  · simp [load_cache, save_cache]
  · simp only [is_cache_valid, save_cache, if_pos rfl]
    simpa [CACHE_TTL] using h

/-- C8, witness: round-trip of `Json.null` at path `p`, written at time 0
and read at time 3. -/
theorem claim_C8_witness :
    load_cache (save_cache emptyFS 0 "p" Json.null) "p" = some Json.null ∧
      is_cache_valid (save_cache emptyFS 0 "p" Json.null) 3 "p" = true :=
  claim_C8_theorem emptyFS 0 "p" Json.null 3 (by decide)

/-! ## Claim C2 -/

/-- The empty price-fetcher cache. -/
def emptyCGStore : CGStore := ⟨fun _ => none⟩

/-- C2, counterexample.  The claim says every fetcher — including the
chain-TVL one — consults the cache, so a second run within the TTL makes
zero network calls.  `_get_historical_chain_tvl` contains no cache logic
at all: every run, including an immediate second run of the identical
successful fetch, issues exactly one HTTP request. -/
theorem claim_C2_counterexample :
    (tvl_fetch "Ethereum" ⟨200, some (Json.arr [])⟩).2 = 1 ∧
      (tvl_fetch "Ethereum" ⟨200, some (Json.arr [])⟩).1 = FetchOutcome.ok [] :=
  ⟨rfl, rfl⟩

/-- C2, amended.  The price/market-cap fetcher and the stablecoin
fetchers do consult the cache: a first run from an empty cache issues one
HTTP request and writes the cache, and a second run within the 24-hour
TTL issues zero requests and returns the cached payload.  The chain-TVL
fetcher, however, issues one HTTP request on every run. -/
theorem claim_C2_amended :
    (∀ (t0 t1 : Int) (name : String) (api api2 : CGData), t1 - t0 < 86400 →
        (price_token_run emptyCGStore t0 name api).2.2 = 1 ∧
          (price_token_run (price_token_run emptyCGStore t0 name api).2.1
            t1 name api2).2.2 = 0 ∧
          (price_token_run (price_token_run emptyCGStore t0 name api).2.1
            t1 name api2).1 = api) ∧
      (∀ (t0 : Int) (asset_id : String) (data : Json) (status : Nat),
        status < 400 →
        get_stablecoin_circulation_run emptyFS t0 asset_id ⟨status, some data⟩
          = .ok (data,
              save_cache emptyFS t0 (stablecoin_cache_path asset_id) data, 1)) ∧
      (∀ (t0 t1 : Int) (asset_id : String) (data : Json) (resp : Resp),
        t1 - t0 < CACHE_TTL →
        get_stablecoin_circulation_run
            (save_cache emptyFS t0 (stablecoin_cache_path asset_id) data)
            t1 asset_id resp
          = .ok (data,
              save_cache emptyFS t0 (stablecoin_cache_path asset_id) data, 0)) ∧
      (∀ (chain : String) (resp : Resp), (tvl_fetch chain resp).2 = 1) := by
  refine ⟨?_, ?_, ?_, ?_⟩
  · intro t0 t1 name api api2 h
    have hrun1 : price_token_run emptyCGStore t0 name api
        = (api, ⟨fun p => if p = price_cache_path name
            then some (api, t0) else none⟩, 1) := rfl
    refine ⟨by rw [hrun1], ?_, ?_⟩
    · rw [hrun1]
      simp [price_token_run, h]
    · rw [hrun1]
      simp [price_token_run, h]
  · intro t0 asset_id data status h
    have hvalid : is_cache_valid emptyFS t0 (stablecoin_cache_path asset_id)
        = false := rfl
    simp [get_stablecoin_circulation_run, hvalid, Nat.not_le.mpr h]
  · intro t0 t1 asset_id data resp h
    have hvalid : is_cache_valid
        (save_cache emptyFS t0 (stablecoin_cache_path asset_id) data) t1
        (stablecoin_cache_path asset_id) = true := by
      simp only [is_cache_valid, save_cache, if_pos rfl]
      simpa [CACHE_TTL] using h
    have hload : load_cache
        (save_cache emptyFS t0 (stablecoin_cache_path asset_id) data)
        (stablecoin_cache_path asset_id) = some data := by
      simp [load_cache, save_cache]
    simp [get_stablecoin_circulation_run, hvalid, hload]
  · intro chain resp
    rfl

/-- C2, witness: the amended theorem applied at concrete times 0 and 10,
a concrete payload and a concrete asset. -/
theorem claim_C2_witness :
    (price_token_run (price_token_run emptyCGStore 0 "Ethereum"
        ⟨[(5, 1)], [(5, 2)]⟩).2.1 10 "Ethereum" ⟨[], []⟩).2.2 = 0 ∧
      get_stablecoin_circulation_run
          (save_cache emptyFS 0 (stablecoin_cache_path "tether") Json.null)
          10 "tether" ⟨200, some Json.null⟩
        = .ok (Json.null,
            save_cache emptyFS 0 (stablecoin_cache_path "tether") Json.null, 0) ∧
      (tvl_fetch "Ethereum" ⟨200, some (Json.arr [])⟩).2 = 1 :=
  ⟨(claim_C2_amended.1 0 10 "Ethereum" ⟨[(5, 1)], [(5, 2)]⟩ ⟨[], []⟩
      (by decide)).2.1,
   claim_C2_amended.2.2.1 0 10 "tether" Json.null ⟨200, some Json.null⟩
      (by decide),
   claim_C2_amended.2.2.2 "Ethereum" ⟨200, some (Json.arr [])⟩⟩

/-! ## Claim C3 -/

/-- C3, counterexample.  The claim says every fetcher raises a
descriptive error on a non-2xx response rather than returning a sentinel.
The chain-TVL fetcher, given a 500 response, prints a message and returns
the `None` sentinel — no exception is raised, and its caller keeps
going. -/
theorem claim_C3_counterexample :
    (tvl_fetch "Ethereum" ⟨500, some (Json.arr [])⟩).1
      = FetchOutcome.sentinelNone := rfl

/-- C3, amended.  On a cache miss the stablecoin fetcher raises
`HTTP Error: <status>` (naming the status but not the entity) exactly for
statuses ≥ 400 — `requests.Response.ok` is `status < 400`, so 3xx
responses pass — and raises on a body that is not valid JSON.  The
chain-TVL fetcher never raises: any non-200 status, undecodable body or
unexpected JSON shape makes it return the `None` sentinel after printing
a diagnostic. -/
theorem claim_C3_amended :
    (∀ (fs : FileStore) (now : Int) (asset_id : String) (resp : Resp),
        is_cache_valid fs now (stablecoin_cache_path asset_id) = false →
        400 ≤ resp.status →
        get_stablecoin_circulation_run fs now asset_id resp
          = .error ("HTTP Error: " ++ toString resp.status)) ∧
      (∀ (fs : FileStore) (now : Int) (asset_id : String) (resp : Resp),
        is_cache_valid fs now (stablecoin_cache_path asset_id) = false →
        resp.status < 400 → resp.json = none →
        get_stablecoin_circulation_run fs now asset_id resp
          = .error "JSONDecodeError") ∧
      (∀ (chain : String) (resp : Resp), resp.status ≠ 200 →
        (tvl_fetch chain resp).1 = .sentinelNone) ∧
      (∀ (chain : String) (resp : Resp), resp.json = none →
        (tvl_fetch chain resp).1 = .sentinelNone) ∧
      (∀ (chain : String) (resp : Resp) (j : Json),
        resp.json = some j → tvlParse j = none →
        (tvl_fetch chain resp).1 = .sentinelNone) := by
  refine ⟨?_, ?_, ?_, ?_, ?_⟩
  · intro fs now asset_id resp hmiss hstatus
    simp [get_stablecoin_circulation_run, hmiss, hstatus]
  · intro fs now asset_id resp hmiss hstatus hjson
    simp [get_stablecoin_circulation_run, hmiss, Nat.not_le.mpr hstatus, hjson]
  · intro chain resp h
    simp [tvl_fetch, h]
  · intro chain resp h
    by_cases hs : resp.status ≠ 200
    · simp [tvl_fetch, hs]
    · simp [tvl_fetch, hs, h]
  · intro chain resp j hj hparse
    by_cases hs : resp.status ≠ 200
    · simp [tvl_fetch, hs]
    · simp [tvl_fetch, hs, hj, hparse]

/-- C3, witness: the amended theorem applied at concrete responses — a
500 error, an undecodable 200 body, a 500 for the TVL fetcher, a TVL body
that is not JSON, and a TVL body of unexpected shape. -/
theorem claim_C3_witness :
    get_stablecoin_circulation_run emptyFS 0 "tether" ⟨500, some Json.null⟩
        = .error "HTTP Error: 500" ∧
      get_stablecoin_circulation_run emptyFS 0 "tether" ⟨200, none⟩
        = .error "JSONDecodeError" ∧
      (tvl_fetch "Solana" ⟨500, some Json.null⟩).1 = .sentinelNone ∧
      (tvl_fetch "Solana" ⟨200, none⟩).1 = .sentinelNone ∧
      (tvl_fetch "Solana" ⟨200, some (Json.str "oops")⟩).1 = .sentinelNone :=
  ⟨claim_C3_amended.1 emptyFS 0 "tether" ⟨500, some Json.null⟩ rfl
      (by norm_num),
   claim_C3_amended.2.1 emptyFS 0 "tether" ⟨200, none⟩ rfl (by norm_num) rfl,
   claim_C3_amended.2.2.1 "Solana" ⟨500, some Json.null⟩ (by norm_num),
   claim_C3_amended.2.2.2.1 "Solana" ⟨200, none⟩ rfl,
   claim_C3_amended.2.2.2.2 "Solana" ⟨200, some (Json.str "oops")⟩
      (Json.str "oops") rfl rfl⟩

/-! ## Claim C4 -/

/-- The mocked CoinGecko payload from the claim's scenario:
`{"prices": [[1700000000000, 10.5]], "market_caps": [[1700000000000, 1000000]]}`. -/
def cgDataC4 : CGData := ⟨[(1700000000000, 21 / 2)], [(1700000000000, 1000000)]⟩

/-- C4, counterexample.  The claim says the resulting row is dated
2023-11-14 at day granularity with no time-of-day component.  The code
converts with `pd.to_datetime(..., unit='ms')`, which keeps the full
timestamp: the single row's index is 1700000000000 ms, i.e.
2023-11-14 22:13:20 UTC — its time-of-day component is 80000000 ms, not
zero. -/
theorem claim_C4_counterexample :
    (price_token_df "X" cgDataC4).idx = [1700000000000] ∧
      msOfDay 1700000000000 = 80000000 ∧ msOfDay 1700000000000 ≠ 0 := by
  decide

/-- C4, amended.  On a cache miss for token "X", the fetcher issues one
request, returns the raw payload and writes it to the cache file; the
resulting series table has exactly one row whose index is the full
millisecond timestamp 1700000000000 (which falls on the civil day
2023-11-14 but retains the time-of-day 22:13:20), with value 10.5 in the
price table and 1000000 in the market-cap table. -/
theorem claim_C4_amended (t : Int) :
    (price_token_run emptyCGStore t "X" cgDataC4).1 = cgDataC4 ∧
      (price_token_run emptyCGStore t "X" cgDataC4).2.2 = 1 ∧
      (price_token_run emptyCGStore t "X" cgDataC4).2.1.files
          (price_cache_path "X") = some (cgDataC4, t) ∧
      (price_token_df "X" cgDataC4).idx = [1700000000000] ∧
      (price_token_df "X" cgDataC4).entry 1700000000000 "X" = some (21 / 2) ∧
      (market_cap_token_df "X" cgDataC4).entry 1700000000000 "X"
        = some 1000000 ∧
      civilFromDays (Int.ofNat (dayOfMs 1700000000000)) = (2023, 11, 14) ∧
      msOfDay 1700000000000 = 80000000 := by
  refine ⟨rfl, rfl, ?_, by decide, rfl, rfl, by decide, by decide⟩
  show (if price_cache_path "X" = price_cache_path "X"
      then some (cgDataC4, t) else none) = some (cgDataC4, t)
  rw [if_pos rfl]

/-! ## Claims C5 and C9 -/

/-- Aggregated supply table matching C5's scenario literally: columns for
Ethereum (=100) and Arbitrum (=50) only, on a single date. -/
def supplyMissingL2 : DF :=
  ⟨[0], ["Ethereum", "Arbitrum"], fun _ c =>
    if c = "Ethereum" then some 100
    else if c = "Arbitrum" then some 50 else none⟩

/-- Aggregated supply table with Ethereum=100, Arbitrum=50 and every
other hardcoded L2 column present with value 0. -/
def supplyWithL2 : DF :=
  ⟨[0], "Ethereum" :: l2_chains, fun _ c =>
    if c = "Ethereum" then some 100
    else if c = "Arbitrum" then some 50 else some 0⟩

/-- C5, counterexample.  With supply records for exactly Ethereum=100 and
Arbitrum=50 on the same date, the aggregated table has only those two
columns, and `get_filtered_stablecoins_total_supply` raises `KeyError`
when selecting its hardcoded L2 columns (`"Base"` etc. are absent), so no
output table with an Ethereum column of 150 is produced.  The L2 list is
also a literal inside the function, not configurable by the caller. -/
theorem claim_C5_counterexample :
    supplyMissingL2.entry 0 "Ethereum" = some 100 ∧
      supplyMissingL2.entry 0 "Arbitrum" = some 50 ∧
      exceptOk (get_filtered_step ["Ethereum"] supplyMissingL2) = false := by
  decide

/-- C5, amended.  When the aggregated table carries a column for every
hardcoded L2 chain name (here all 0 except Arbitrum=50) in addition to
Ethereum=100, the filtered output's Ethereum column on that date equals
150: the L2 balances are summed into the Ethereum column under the fixed
L2 list of the function. -/
theorem claim_C5_amended :
    supplyWithL2.entry 0 "Ethereum" = some 100 ∧
      supplyWithL2.entry 0 "Arbitrum" = some 50 ∧
      filteredEntry ["Ethereum"] supplyWithL2 0 "Ethereum"
        = some (some 150) := by
  refine ⟨rfl, rfl, ?_⟩
  simp only [filteredEntry, get_filtered_step, supplyWithL2, l2_chains, l2Sum,
    DF.entry]
  norm_num [show ("Base" : String) ≠ "Ethereum" from by decide,
    show ("Base" : String) ≠ "Arbitrum" from by decide,
    show ("Optimism" : String) ≠ "Ethereum" from by decide,
    show ("Optimism" : String) ≠ "Arbitrum" from by decide,
    show ("Arbitrum" : String) ≠ "Ethereum" from by decide,
    show ("Polygon" : String) ≠ "Ethereum" from by decide,
    show ("Polygon" : String) ≠ "Arbitrum" from by decide,
    show ("zkSync Lite" : String) ≠ "Ethereum" from by decide,
    show ("zkSync Lite" : String) ≠ "Arbitrum" from by decide,
    show ("StarkNet" : String) ≠ "Ethereum" from by decide,
    show ("StarkNet" : String) ≠ "Arbitrum" from by decide,
    show ("Scroll" : String) ≠ "Ethereum" from by decide,
    show ("Scroll" : String) ≠ "Arbitrum" from by decide]

/-- C9, confirmed.  `get_filtered_stablecoins_total_supply` succeeds on
the aggregated supply table exactly when "Ethereum", every name of the
hardcoded L2 list and every requested chain are columns of the table;
otherwise it fails with a lookup error instead of treating a missing
column as zero.  The L2 list is the function's own literal
(`l2_chains`), not a caller-supplied parameter. -/
theorem claim_C9_theorem (chains : List String) (df : DF) :
    exceptOk (get_filtered_step chains df) = true ↔
      ("Ethereum" ∈ df.cols ∧ (∀ c ∈ l2_chains, c ∈ df.cols) ∧
        ∀ c ∈ chains, c ∈ df.cols) := by
  simp only [get_filtered_step]
  by_cases h1 : "Ethereum" ∈ df.cols
  · rw [if_neg (not_not_intro h1)]
    by_cases h2 : ∀ c ∈ l2_chains, c ∈ df.cols
    · rw [if_neg (not_not_intro h2)]
      by_cases h3 : ∀ c ∈ chains, c ∈ df.cols
      · rw [if_neg (not_not_intro h3)]
        exact iff_of_true rfl ⟨h1, h2, h3⟩
      · rw [if_pos h3]
        exact iff_of_false (by simp [exceptOk]) (fun h => h3 h.2.2)
    · rw [if_pos h2]
      exact iff_of_false (by simp [exceptOk]) (fun h => h2 h.2.1)
  · rw [if_pos h1]
    exact iff_of_false (by simp [exceptOk]) (fun h => h1 h.1)

/-! ## Claim C10 -/

/-- `(dfAdd a b)` combines cells exactly like `optAdd` on the two grids. -/
theorem dfAdd_entry (a b : DF) (d : Nat) (c : String) :
    (dfAdd a b).entry d c = optAdd (a.entry d c) (b.entry d c) := by
  by_cases h : d ∈ (dfAdd a b).idx ∧ c ∈ (dfAdd a b).cols
  · rw [DF.entry, if_pos h]; rfl
  · rw [DF.entry, if_neg h]
    cases haz : a.entry d c with
    | some x =>
      exfalso
      obtain ⟨hd, hc⟩ := DF.entry_eq_some a d c x haz
      exact h ⟨List.mem_append_left _ hd, List.mem_append_left _ hc⟩
    | none =>
      cases hbz : b.entry d c with
      | some y =>
        exfalso
        obtain ⟨hd, hc⟩ := DF.entry_eq_some b d c y hbz
        refine h ⟨?_, ?_⟩
        · by_cases hda : d ∈ a.idx
          · exact List.mem_append_left _ hda
          · exact List.mem_append_right _
              (List.mem_filter.mpr ⟨hd, by simpa using hda⟩)
        · by_cases hca : c ∈ a.cols
          · exact List.mem_append_left _ hca
          · exact List.mem_append_right _
              (List.mem_filter.mpr ⟨hc, by simpa using hca⟩)
      | none => rfl

/-- Folding `dfAdd` over asset tables acts cellwise as folding `optAdd`. -/
theorem foldl_supply_entry (l : List PeggedAsset) (acc : DF) (d : Nat)
    (c : String) :
    (l.foldl (fun acc a => dfAdd acc a.table) acc).entry d c
      = (l.map (fun a => a.table.entry d c)).foldl optAdd (acc.entry d c) := by
  induction l generalizing acc with
  | nil => rfl
  | cons a l ih =>
    simp only [List.foldl_cons, List.map_cons]
    rw [ih, dfAdd_entry]

/-- Folding `optAdd` from a present value sums the list with missing
cells as 0. -/
theorem foldl_optAdd_some (s : ℚ) (l : List (Option ℚ)) :
    l.foldl optAdd (some s) = some (s + (l.map (fun v => v.getD 0)).sum) := by
  induction l generalizing s with
  | nil => simp
  | cons v l ih =>
    cases v with
    | none => simp [List.foldl_cons, optAdd, ih]
    | some x => simp [List.foldl_cons, optAdd, ih, add_assoc]

/-- Folding `optAdd` from nothing: missing only when every summand is
missing, otherwise the sum with missing cells as 0. -/
theorem foldl_optAdd_none (l : List (Option ℚ)) :
    l.foldl optAdd none
      = if l.all (fun v => v.isNone) then none
        else some ((l.map (fun v => v.getD 0)).sum) := by
  induction l with
  | nil => simp
  | cons v l ih =>
    cases v with
    | none =>
      simp only [List.foldl_cons, optAdd, ih]
      by_cases h : l.all (fun v => v.isNone) <;> simp [h]
    | some x =>
      simp only [List.foldl_cons, optAdd, foldl_optAdd_some]
      simp

/-- C10, amended.  Every cell of the total-supply table is the sum, over
exactly the fiat-backed assets whose own table carries that (date, chain)
cell, of the cell's value — a cell missing from some (but not all) of
those tables contributes 0 to the sum, and assets with other peg
mechanisms contribute nothing.  However, a (date, chain) combination
reported by no fiat-backed asset is NaN/missing in the total, not 0. -/
theorem claim_C10_amended (assets : List PeggedAsset) (d : Nat) (c : String) :
    (get_stablecoins_total_supply assets).entry d c
      = if (fetch_and_cache_assets_filter assets).all
            (fun a => (a.table.entry d c).isNone) then none
        else some (((fetch_and_cache_assets_filter assets).map
            (fun a => (a.table.entry d c).getD 0)).sum) := by
  unfold get_stablecoins_total_supply
  rw [foldl_supply_entry]
  have hempty : emptyDF.entry d c = none := rfl
  rw [hempty, foldl_optAdd_none]
  simp [List.all_map, List.map_map, Function.comp_def]

/-- Two fiat-backed assets with disjoint grids, as in the C10
counterexample. -/
def assetsC10 : List PeggedAsset :=
  [⟨"T1", "fiat-backed", ⟨[0], ["A"], fun _ _ => some 100⟩⟩,
   ⟨"T2", "fiat-backed", ⟨[1], ["B"], fun _ _ => some 50⟩⟩]

/-- C10, counterexample.  The claim's formula makes a cell reported by no
asset equal to the empty sum 0; in the code, `DataFrame.add(...,
fill_value=0)` leaves such a cell missing (NaN).  With asset T1 reporting
only (date 0, chain A) and asset T2 only (date 1, chain B), the cell
(date 0, chain B) lies in the output grid but is NaN, not 0. -/
theorem claim_C10_counterexample :
    0 ∈ (get_stablecoins_total_supply assetsC10).idx ∧
      "B" ∈ (get_stablecoins_total_supply assetsC10).cols ∧
      (get_stablecoins_total_supply assetsC10).entry 0 "B" = none ∧
      (get_stablecoins_total_supply assetsC10).entry 0 "A" = some 100 := by
  decide

end CryptoModels
